import Mathlib

/-!
Shallow embedding of `sendgrid_backend/mail.py` (django-sendgrid-v5): the
message-to-payload transformation `_build_sg_mail` and the helpers it uses.

External collaborators are parameters of the embedding:
* the address parser `email.utils.parseaddr` is a parameter
  `pa : String → String × String` returning `(realname, address)`; its
  behaviour when (mis)applied to a list (line 194 of the source can reach
  `parseaddr` with the raw `reply_to` list) is a second parameter `paL`;
* `uuid.uuid4().hex` is a parameter `uuid : Nat → String` giving the hex
  token used for the n-th attachment;
* `mimetypes.guess_extension` is a parameter `gx : String → Option String`;
* the backend configuration (sandbox/tracking flags) is a `Config` record.

The sendgrid v5 helper classes (`Mail`, `Email`, `Personalization`,
`Attachment`, `Content`, ...) are plain data holders; they are embedded as
Lean structures.  `Email(v)` stores the raw string as the address with no
display name.  Python exceptions raised by `_build_sg_mail` become the
`BuildError` sum; the in-place update of `msg.body` (source line 239) is
modelled by returning the updated message next to the payload.
-/

deriving instance DecidableEq for Except

namespace SendgridV5

/-- An `Email` helper object of sendgrid v5: a bare (address, display-name)
pair; `name = none` models Python `None`. -/
structure EmailAddr where
  email : String
  name : Option String
deriving DecidableEq

/-- The value of `msg.reply_to`: Django allows a single string or a list of
address strings. -/
inductive ReplyToVal where
  | str (s : String)
  | list (l : List String)
deriving DecidableEq

/-- Python truthiness of a reply-to value (`if ... and msg.reply_to:`,
source line 191): the empty string and the empty list are falsy. -/
def ReplyToVal.truthy : ReplyToVal → Bool
  | .str s => !(s == "")
  | .list l => !l.isEmpty

/-- The value of `msg.ip_pool_name`: a Python string or a value of any other
type (the source checks `isinstance(..., basestring)`, line 166). -/
inductive PoolNameVal where
  | str (s : String)
  | notAStr
deriving DecidableEq

/-- The value of `msg.send_at`: an int or a value of any other type
(`isinstance(msg.send_at, int)`, line 182). -/
inductive SendAtVal where
  | int (n : Int)
  | notAnInt
deriving DecidableEq

/-- The `msg.asm` dict: the source only looks up the keys `"group_id"` and
`"groups_to_display"` (lines 256-263). -/
structure AsmDesc where
  group_id : Option Int
  groups_to_display : Option (List Int)
deriving DecidableEq

/-- Content of a tuple-shaped attachment: a Python `str` or raw bytes
(line 232 checks `isinstance(content, str)`).  Bytes are naturals < 256. -/
inductive AttachContentVal where
  | ofStr (s : String)
  | ofBytes (bs : List Nat)
deriving DecidableEq

/-- A `MIMEBase`-shaped attachment as the source reads it: `get_filename()`,
`get_content_type()`, `get_payload()` and the `Content-ID` header. -/
structure MimePart where
  filename : Option String
  content_type : String
  payload : String
  content_id : Option String
deriving DecidableEq

/-- One entry of `msg.attachments`: a `MIMEBase` instance or a
`(filename, content, mimetype)` tuple (source lines 206-237). -/
inductive AttachVal where
  | mime (part : MimePart)
  | tup (filename : String) (content : AttachContentVal) (mimetype : String)
deriving DecidableEq

/-- The source message.  Optional attributes probed with `hasattr` are
`Option` fields; `multi = some alts` states that the message is an
`EmailMultiAlternatives` whose `alternatives` list is `alts`, each
alternative being a `(content, mimetype)` pair. -/
structure Msg where
  from_email : String
  to_ : List String
  cc : List String
  bcc : List String
  subject : String
  body : String
  extra_headers : List (String × String)
  custom_args : Option (List (String × String))
  template_id : Option String
  substitutions : Option (List (String × String))
  dynamic_template_data : Option (List (String × String))
  ip_pool_name : Option PoolNameVal
  send_at : Option SendAtVal
  reply_to : Option ReplyToVal
  attachments : List AttachVal
  multi : Option (List (String × String))
  content_subtype : String
  categories : Option (List String)
  asm : Option AsmDesc
deriving DecidableEq

/-- Backend configuration read by `_build_sg_mail` (set in `__init__`). -/
structure Config where
  sandbox_mode : Bool
  track_email : Bool
  track_click : Bool
  subscription : Bool
deriving DecidableEq

/-- A sendgrid v5 `Attachment` helper object as `_build_sg_mail` fills it. -/
structure SgAttachment where
  filename : String
  content : String
  type : String
  content_id : Option String
  disposition : Option String
deriving DecidableEq

/-- A sendgrid `Content` helper object: a MIME type and a value. -/
structure ContentPart where
  type : String
  value : String
deriving DecidableEq

/-- The single `Personalization` block built by `_build_sg_mail`. -/
structure Personalization where
  tos : List EmailAddr
  ccs : List EmailAddr
  bccs : List EmailAddr
  subject : String
  headers : List (String × String)
  custom_args : List (String × String)
  substitutions : List (String × String)
  dynamic_template_data : Option (List (String × String))
  send_at : Option Int
deriving DecidableEq

/-- `mail_settings` of the payload. -/
structure MailSettingsV where
  sandbox_mode : Bool
deriving DecidableEq

/-- `tracking_settings` of the payload. -/
structure TrackingSettingsV where
  open_tracking : Bool
  click_tracking : Bool
  subscription_tracking : Bool
deriving DecidableEq

/-- The finished payload (the `Mail` object handed to `mail.get()`). -/
structure Payload where
  from_email : EmailAddr
  subject : String
  personalization : Personalization
  reply_to : Option EmailAddr
  template_id : Option String
  ip_pool_name : Option String
  attachments : List SgAttachment
  content : List ContentPart
  categories : List String
  asm : Option (Int × Option (List Int))
  mail_settings : MailSettingsV
  tracking_settings : TrackingSettingsV
deriving DecidableEq

/-- The exceptions `_build_sg_mail` can raise, one constructor per raise
site (lines 167, 173, 183, 196, 201, 258 of the source). -/
inductive BuildError where
  | invalidPoolNameType
  | invalidPoolNameLength
  | invalidSendAt
  | replyToConflict
  | tooManyReplyTo
  | missingGroupId
deriving DecidableEq

/-- Python `str.lower()` as used on ASCII header names (line 151):
lowercase the string character by character. -/
def pyLower (s : String) : String := String.mk (s.data.map Char.toLower)

/-- `_parse_email_address` (lines 122-126): run the address parser and turn a
falsy (empty) realname into `None`. -/
def parseEmailAddress (pa : String → String × String) (address : String) : EmailAddr :=
  let p := pa address
  ⟨p.2, if p.1 = "" then none else some p.1⟩

/-- Line 194 applies `_parse_email_address` to the raw `msg.reply_to` value,
which may be a string or a list; the list case goes through the collaborator
parameter `paL`. -/
def parseReplyToVal (pa : String → String × String) (paL : List String → String × String) :
    ReplyToVal → EmailAddr
  | .str s => parseEmailAddress pa s
  | .list l =>
    let p := paL l
    ⟨p.2, if p.1 = "" then none else some p.1⟩

/-- The header loop of lines 150-154: a header whose lowercased name is
`"reply-to"` overwrites the mail's reply-to (raw value, no display name);
every other header is appended to the personalization block. -/
def headersLoop (acc : Option EmailAddr × List (String × String)) :
    List (String × String) → Option EmailAddr × List (String × String)
  | [] => acc
  | (k, v) :: rest =>
    if pyLower k = "reply-to" then headersLoop (some ⟨v, none⟩, acc.2) rest
    else headersLoop (acc.1, acc.2 ++ [(k, v)]) rest

/-- The value the header loop leaves in the mail's reply-to: the value of the
last header whose lowercased name is `"reply-to"`. -/
def divertedReplyTo : List (String × String) → Option String
  | [] => none
  | (k, v) :: rest =>
    match divertedReplyTo rest with
    | some w => some w
    | none => if pyLower k = "reply-to" then some v else none

/-- The headers the loop attaches to the personalization block: all whose
lowercased name is not `"reply-to"`, in order. -/
def keptHeaders (l : List (String × String)) : List (String × String) :=
  l.filter (fun kv => !(pyLower kv.1 == "reply-to"))

/-- `ip_pool_name` validation (lines 165-178). -/
def checkPool (m : Msg) : Except BuildError (Option String) :=
  match m.ip_pool_name with
  | none => .ok none
  | some .notAStr => .error .invalidPoolNameType
  | some (.str v) =>
    if 2 ≤ v.length ∧ v.length ≤ 64 then .ok (some v)
    else .error .invalidPoolNameLength

/-- `send_at` validation (lines 181-187). -/
def checkSendAt (m : Msg) : Except BuildError (Option Int) :=
  match m.send_at with
  | none => .ok none
  | some .notAnInt => .error .invalidSendAt
  | some (.int n) => .ok (some n)

/-- Reply-to reconciliation (lines 191-204): given the reply-to the header
loop left on the mail, resolve `msg.reply_to` into the final payload
reply-to, raising on a header/field mismatch or on a list of more than one
address. -/
def resolveReplyTo (pa : String → String × String) (paL : List String → String × String)
    (headerRT : Option EmailAddr) (m : Msg) : Except BuildError (Option EmailAddr) :=
  match m.reply_to with
  | none => .ok headerRT
  | some r =>
    if r.truthy then
      let conflict : Except BuildError Unit :=
        match headerRT with
        | none => .ok ()
        | some h =>
          let f := parseReplyToVal pa paL r
          if f.email ≠ h.email ∨ f.name ≠ h.name then .error .replyToConflict else .ok ()
      match conflict with
      | .error e => .error e
      | .ok () =>
        match r with
        | .list l =>
          if l.length > 1 then .error .tooManyReplyTo
          else .ok (some (parseEmailAddress pa (l.getD 0 "")))
        | .str s => .ok (some (parseEmailAddress pa s))
    else .ok headerRT

/-- `asm` validation (lines 256-263). -/
def checkAsm (m : Msg) : Except BuildError (Option (Int × Option (List Int))) :=
  match m.asm with
  | none => .ok none
  | some a =>
    match a.group_id with
    | none => .error .missingGroupId
    | some gid => .ok (some (gid, a.groups_to_display))

/-- `content_id[1:-1]` bracket stripping (lines 221-222). -/
def stripAngles (cid : String) : String :=
  if cid.startsWith "<" ∧ cid.endsWith ">" then (cid.drop 1).dropRight 1 else cid

/-- `attch.get_payload().replace("\n", "")` (line 216). -/
def removeNewlines (s : String) : String :=
  String.mk (s.data.filter (fun c => !(c == '\n')))

/-- The filename synthesized on line 213:
`"part-{0}{1}".format(uuid.uuid4().hex, ext)` where `ext` is the guessed
extension; Python formats the `None` returned by a failed guess as the
four characters `"None"`. -/
def synthFilename (hex : String) (gx : String → Option String) (ctype : String) : String :=
  "part-" ++ hex ++ (match gx ctype with | some e => e | none => "None")

/-- The base64 alphabet of RFC 4648 used by `base64.b64encode`. -/
def b64alphabet : List Char :=
  ['A','B','C','D','E','F','G','H','I','J','K','L','M','N','O','P','Q','R','S','T','U','V','W','X','Y','Z',
   'a','b','c','d','e','f','g','h','i','j','k','l','m','n','o','p','q','r','s','t','u','v','w','x','y','z',
   '0','1','2','3','4','5','6','7','8','9','+','/']

/-- The character encoding a 6-bit group. -/
def b64chr (n : Nat) : Char := b64alphabet.getD n '?'

/-- The 6-bit group a base64 character stands for, `none` for a character
outside the alphabet (in particular for the pad `'='`). -/
def b64idx (ch : Char) : Option Nat := b64alphabet.findIdx? (fun c => c = ch)

/-- `base64.b64encode` on a byte list, producing the character list of the
standard padded encoding, three bytes to four characters. -/
def b64encodeList : List Nat → List Char
  | b0 :: b1 :: b2 :: rest =>
    b64chr (b0 / 4) :: b64chr (b0 % 4 * 16 + b1 / 16) ::
      b64chr (b1 % 16 * 4 + b2 / 64) :: b64chr (b2 % 64) :: b64encodeList rest
  | [b0, b1] => [b64chr (b0 / 4), b64chr (b0 % 4 * 16 + b1 / 16), b64chr (b1 % 16 * 4), '=']
  | [b0] => [b64chr (b0 / 4), b64chr (b0 % 4 * 16), '=', '=']
  | [] => []

/-- `base64.b64encode(content).decode()` (line 234). -/
def b64encodeStr (bs : List Nat) : String := String.mk (b64encodeList bs)

/-- A base64 decoder, inverse of `b64encodeList`: four characters back to
three bytes, honouring the pad. -/
def b64decodeList : List Char → Option (List Nat)
  | [] => some []
  | c0 :: c1 :: c2 :: c3 :: rest =>
    if c2 = '=' ∧ c3 = '=' ∧ rest = [] then
      match b64idx c0, b64idx c1 with
      | some s0, some s1 => some [s0 * 4 + s1 / 16]
      | _, _ => none
    else if c3 = '=' ∧ rest = [] then
      match b64idx c0, b64idx c1, b64idx c2 with
      | some s0, some s1, some s2 => some [s0 * 4 + s1 / 16, s1 % 16 * 16 + s2 / 4]
      | _, _, _ => none
    else
      match b64idx c0, b64idx c1, b64idx c2, b64idx c3, b64decodeList rest with
      | some s0, some s1, some s2, some s3, some tail =>
        some ((s0 * 4 + s1 / 16) :: (s1 % 16 * 16 + s2 / 4) :: (s2 % 4 * 64 + s3) :: tail)
      | _, _, _, _, _ => none
  | _ => none

/-- Decoding a payload attachment's content string. -/
def b64decodeStr (s : String) : Option (List Nat) := b64decodeList s.data

/-- UTF-8 encoding of one unicode scalar value. -/
def utf8Bytes (n : Nat) : List Nat :=
  if n < 128 then [n]
  else if n < 2048 then [192 + n / 64, 128 + n % 64]
  else if n < 65536 then [224 + n / 4096, 128 + n / 64 % 64, 128 + n % 64]
  else [240 + n / 262144, 128 + n / 4096 % 64, 128 + n / 64 % 64, 128 + n % 64]

/-- `content.encode('utf-8')` (line 233) on the character list of a string. -/
def utf8Encode : List Char → List Nat
  | [] => []
  | c :: rest => utf8Bytes c.toNat ++ utf8Encode rest

/-- The bytes line 234 base64-encodes: a `str` content is UTF-8 encoded
first, raw bytes are used as given. -/
def attachContentBytes : AttachContentVal → List Nat
  | .ofStr s => utf8Encode s.data
  | .ofBytes bs => bs

/-- Well-formedness of tuple-attachment content: raw bytes are bytes. -/
def AttachContentVal.wfBytes : AttachContentVal → Prop
  | .ofStr _ => True
  | .ofBytes bs => ∀ b ∈ bs, b < 256

instance : DecidablePred AttachContentVal.wfBytes := fun c =>
  match c with
  | .ofStr _ => inferInstanceAs (Decidable True)
  | .ofBytes bs => inferInstanceAs (Decidable (∀ b ∈ bs, b < 256))

/-- One iteration of the attachment loop (lines 206-237), given the hex
token `uuid.uuid4().hex` produced for this iteration. -/
def buildAttachment (hex : String) (gx : String → Option String) : AttachVal → SgAttachment
  | .mime part =>
    let filename :=
      match part.filename with
      | some f => if f = "" then synthFilename hex gx part.content_type else f
      | none => synthFilename hex gx part.content_type
    let cidDisp :=
      match part.content_id with
      | some cid =>
        if cid = "" then (none, none) else (some (stripAngles cid), some "inline")
      | none => ((none : Option String), (none : Option String))
    { filename := filename
      content := removeNewlines part.payload
      type := part.content_type
      content_id := cidDisp.1
      disposition := cidDisp.2 }
  | .tup f c t =>
    { filename := f
      content := b64encodeStr (attachContentBytes c)
      type := t
      content_id := none
      disposition := none }

/-- The attachment loop: the n-th attachment consumes the n-th hex token. -/
def buildAttachments (uuid : Nat → String) (gx : String → Option String) (i : Nat) :
    List AttachVal → List SgAttachment
  | [] => []
  | a :: rest => buildAttachment (uuid i) gx a :: buildAttachments uuid gx (i + 1) rest

/-- Line 239: an empty body is replaced by a single space. -/
def coerceBody (b : String) : String := if b = "" then " " else b

/-- The alternatives loop of lines 243-245: keep, in order, the alternatives
whose mimetype is `"text/html"`. -/
def htmlAlts : List (String × String) → List ContentPart
  | [] => []
  | (c, t) :: rest => if t = "text/html" then ⟨t, c⟩ :: htmlAlts rest else htmlAlts rest

/-- The content parts of lines 241-250, `body` being `msg.body` after the
line-239 coercion. -/
def contentParts (m : Msg) (body : String) : List ContentPart :=
  match m.multi with
  | some alts => ⟨"text/plain", body⟩ :: htmlAlts alts
  | none =>
    if m.content_subtype = "html" then [⟨"text/plain", " "⟩, ⟨"text/html", body⟩]
    else [⟨"text/plain", body⟩]

/-- The payload `_build_sg_mail` assembles once all validations passed,
given the validated pool name, send-at, reply-to and asm values. -/
def assemblePayload (pa : String → String × String) (uuid : Nat → String)
    (gx : String → Option String) (cfg : Config) (m : Msg) (poolName : Option String)
    (sendAt : Option Int) (replyTo : Option EmailAddr)
    (asmV : Option (Int × Option (List Int))) : Payload :=
  { from_email := parseEmailAddress pa m.from_email
    subject := m.subject
    personalization :=
      { tos := m.to_.map (parseEmailAddress pa)
        ccs := m.cc.map (parseEmailAddress pa)
        bccs := m.bcc.map (parseEmailAddress pa)
        subject := m.subject
        headers := (headersLoop (none, []) m.extra_headers).2
        custom_args := m.custom_args.getD []
        substitutions :=
          match m.template_id with
          | some _ => m.substitutions.getD []
          | none => []
        dynamic_template_data :=
          match m.template_id with
          | some _ => m.dynamic_template_data
          | none => none
        send_at := sendAt }
    reply_to := replyTo
    template_id := m.template_id
    ip_pool_name := poolName
    attachments := buildAttachments uuid gx 0 m.attachments
    content := contentParts m (coerceBody m.body)
    categories := m.categories.getD []
    asm := asmV
    mail_settings := ⟨cfg.sandbox_mode⟩
    tracking_settings := ⟨cfg.track_email, cfg.track_click, cfg.subscription⟩ }

/-- `_build_sg_mail` (lines 128-275).  Returns the payload together with the
message as the function leaves it (its `body` attribute is updated in place
on line 239); a raised exception is an `error` value, validations
short-circuiting in source order (pool name, send_at, reply-to, asm). -/
def buildSgMail (pa : String → String × String) (paL : List String → String × String)
    (uuid : Nat → String) (gx : String → Option String) (cfg : Config) (m : Msg) :
    Except BuildError (Payload × Msg) :=
  match checkPool m with
  | .error e => .error e
  | .ok poolName =>
    match checkSendAt m with
    | .error e => .error e
    | .ok sendAt =>
      match resolveReplyTo pa paL (headersLoop (none, []) m.extra_headers).1 m with
      | .error e => .error e
      | .ok replyTo =>
        match checkAsm m with
        | .error e => .error e
        | .ok asmV =>
          .ok (assemblePayload pa uuid gx cfg m poolName sendAt replyTo asmV,
               { m with body := coerceBody m.body })

/-- `isOk` test for `Except` results of the build. -/
def isOkE {ε α : Type} : Except ε α → Bool
  | .ok _ => true
  | .error _ => false

/-- Concrete stand-in for `email.utils.parseaddr`, agreeing with it on plain
addresses and on `Name <addr>` forms (checked against the stdlib). -/
def paSimple (s : String) : String × String :=
  let cs := s.data
  if cs.contains '<' then
    let nm := (cs.takeWhile (fun c => c != '<')).dropWhile (fun c => c == ' ')
    let nm := ((nm.reverse.dropWhile (fun c => c == ' ')).reverse)
    let ad := ((cs.dropWhile (fun c => c != '<')).drop 1).takeWhile (fun c => c != '>')
    (String.mk nm, String.mk ad)
  else ("", s)

/-- Concrete stand-in for `parseaddr` applied to a list (checked against the
stdlib: a one-element list parses like its element, the empty list yields
two empty strings). -/
def paListSimple (l : List String) : String × String :=
  match l with
  | [x] => paSimple x
  | _ => ("", "")

/-- A fixed hex-token source standing in for `uuid.uuid4().hex`. -/
def uuidFixed : Nat → String := fun _ => "0123abcd"

/-- A concrete `mimetypes.guess_extension` table (checked: png guesses
`.png`; an unknown type guesses nothing). -/
def gxSimple : String → Option String :=
  fun t => if t = "image/png" then some ".png" else none

/-- A default backend configuration: sandbox off, tracking on, subscription
off. -/
def cfgDefault : Config := ⟨false, true, true, false⟩

/-- A plain well-formed message to instantiate claims on. -/
def baseMsg : Msg where
  from_email := "from@x.com"
  to_ := ["to@x.com"]
  cc := []
  bcc := []
  subject := "Subject"
  body := "Body"
  extra_headers := []
  custom_args := none
  template_id := none
  substitutions := none
  dynamic_template_data := none
  ip_pool_name := none
  send_at := none
  reply_to := none
  attachments := []
  multi := none
  content_subtype := "plain"
  categories := none
  asm := none

/-- The pool-name validity the source enforces: a string of length 2 to 64. -/
def poolValidB : PoolNameVal → Bool
  | .str v => decide (2 ≤ v.length ∧ v.length ≤ 64)
  | .notAStr => false

/-- Which error an invalid pool name raises: the type check fires before the
length check. -/
def poolErr : PoolNameVal → BuildError
  | .str _ => .invalidPoolNameLength
  | .notAStr => .invalidPoolNameType

/-- Well-formedness of one attachment entry: raw tuple bytes are bytes. -/
def AttachVal.wfA : AttachVal → Prop
  | .tup _ c _ => c.wfBytes
  | .mime _ => True

instance : DecidablePred AttachVal.wfA := fun a =>
  match a with
  | .tup _ c _ => inferInstanceAs (Decidable c.wfBytes)
  | .mime _ => inferInstanceAs (Decidable True)

/-- Position-tagged attachment list (the n-th attachment consumes the n-th
uuid hex token). -/
def enumAttach : Nat → List AttachVal → List (Nat × AttachVal)
  | _, [] => []
  | i, a :: rest => (i, a) :: enumAttach (i + 1) rest

/-- What the filename of a built attachment must look like: a structured
attachment always carries a non-empty filename — synthesized when the part
has none (or an empty one), the part's own filename kept verbatim when it
is non-empty; a tuple attachment keeps its given filename. -/
def filenameSpec (uuid : Nat → String) (gx : String → Option String)
    (ia : Nat × AttachVal) (dst : SgAttachment) : Prop :=
  match ia.2 with
  | .mime part =>
    dst.filename ≠ "" ∧
    ((part.filename = none ∨ part.filename = some "") →
      dst.filename = synthFilename (uuid ia.1) gx part.content_type) ∧
    (∀ f, part.filename = some f → f ≠ "" → dst.filename = f)
  | .tup f _ _ => dst.filename = f

/-- What the content of a built tuple attachment must be: the base64
encoding of the (UTF-8 encoded when textual) content bytes, which the
decoder inverts. -/
def contentSpec : AttachVal → SgAttachment → Prop :=
  fun src dst =>
    match src with
    | .tup _ c _ =>
      dst.content = b64encodeStr (attachContentBytes c) ∧
      b64decodeStr dst.content = some (attachContentBytes c)
    | .mime _ => True

/-- Header-declared and field-declared reply-to, the same raw string with a
display name: the claim expects success, the build raises. -/
def msgReplyToBoth : Msg :=
  { baseMsg with
    extra_headers := [("Reply-To", "John <a@x.com>")],
    reply_to := some (.str "John <a@x.com>") }

/-- Header-declared and field-declared reply-to, the same plain address. -/
def msgReplyToPlain : Msg :=
  { baseMsg with
    extra_headers := [("Reply-To", "a@x.com")],
    reply_to := some (.str "a@x.com") }

/-- A reply-to header carrying a display name, no explicit field. -/
def msgHeaderOnly : Msg :=
  { baseMsg with extra_headers := [("Reply-To", "John <a@x.com>")] }

/-- A mixed header list: generic headers around a reply-to header in
scrambled case. -/
def msgMixedHeaders : Msg :=
  { baseMsg with
    extra_headers := [("X-Custom", "1"), ("REPLY-to", "r@x.com"), ("Other", "2")] }

/-- A message whose body is the empty string. -/
def msgEmptyBody : Msg := { baseMsg with body := "" }

/-- A tuple attachment whose given filename is the empty string. -/
def msgEmptyFilename : Msg :=
  { baseMsg with attachments := [.tup "" (.ofStr "x") "text/plain"] }

/-- A structured attachment with no filename, a named tuple attachment, and
a structured attachment carrying its own filename. -/
def msgTwoAttachments : Msg :=
  { baseMsg with
    attachments := [.mime ⟨none, "image/png", "QUJD", none⟩,
                    .tup "a.txt" (.ofStr "hi") "text/plain",
                    .mime ⟨some "given.png", "image/png", "QUJD", none⟩] }

/-- A pool name of length 1. -/
def msgShortPool : Msg := { baseMsg with ip_pool_name := some (.str "a") }

/-- A pool name of length 2. -/
def msgPool2 : Msg := { baseMsg with ip_pool_name := some (.str "ab") }

/-- A pool name of length 64. -/
def msgPool64 : Msg :=
  { baseMsg with
    ip_pool_name :=
      some (.str "p123456789012345678901234567890123456789012345678901234567890123") }

/-- A pool name of length 65. -/
def msgPool65 : Msg :=
  { baseMsg with
    ip_pool_name :=
      some (.str "p1234567890123456789012345678901234567890123456789012345678901234") }

/-- An html-subtype message without alternatives. -/
def msgHtml : Msg := { baseMsg with content_subtype := "html", body := "<b>hi</b>" }

/-- A multi-alternative message with one html and one non-html alternative. -/
def msgTwoAlts : Msg :=
  { baseMsg with multi := some [("<p>x</p>", "text/html"), ("csv", "text/csv")] }

/-- A tuple attachment with textual content `"hello"`. -/
def msgHello : Msg :=
  { baseMsg with attachments := [.tup "f.txt" (.ofStr "hello") "text/plain"] }

/-- A falsy (empty list) explicit reply-to next to a reply-to header. -/
def msgFalsyReplyTo : Msg :=
  { baseMsg with
    extra_headers := [("Reply-To", "h@x.com")],
    reply_to := some (.list []) }

/-- A computably-ok `Except` value is an `ok`. -/
theorem exists_ok_of_isOkE {ε α : Type} {x : Except ε α} (h : isOkE x = true) :
    ∃ a, x = .ok a := by
  cases x with
  | ok a => exact ⟨a, rfl⟩
  | error e => simp [isOkE] at h

/-- The header loop computes the last diverted reply-to value and appends the
kept headers, in order, to its accumulator. -/
theorem headersLoop_spec (rt0 : Option EmailAddr) (hs0 : List (String × String))
    (l : List (String × String)) :
    headersLoop (rt0, hs0) l =
      ((match divertedReplyTo l with
        | some v => some ⟨v, none⟩
        | none => rt0),
       hs0 ++ keptHeaders l) := by
  induction l generalizing rt0 hs0 with
  | nil => simp [headersLoop, divertedReplyTo, keptHeaders]
  | cons kv rest ih =>
    obtain ⟨k, v⟩ := kv
    by_cases h : pyLower k = "reply-to"
    · rw [show headersLoop (rt0, hs0) ((k, v) :: rest) = headersLoop (some ⟨v, none⟩, hs0) rest
        by simp [headersLoop, h], ih]
      cases hr : divertedReplyTo rest <;>
        simp [divertedReplyTo, keptHeaders, hr, h]
    · rw [show headersLoop (rt0, hs0) ((k, v) :: rest)
            = headersLoop (rt0, hs0 ++ [(k, v)]) rest by simp [headersLoop, h], ih]
      cases hr : divertedReplyTo rest <;>
        simp [divertedReplyTo, keptHeaders, hr, h]

/-- Decoding inverts encoding on every 6-bit group. -/
theorem b64idx_b64chr : ∀ n, n < 64 → b64idx (b64chr n) = some n := by decide

/-- No alphabet character is the pad. -/
theorem b64chr_ne_pad : ∀ n, n < 64 → b64chr n ≠ '=' := by decide

/-- Base64 round trip: decoding the encoding of a byte list gives the bytes
back. -/
theorem b64decodeList_encodeList : ∀ (bs : List Nat), (∀ b ∈ bs, b < 256) →
    b64decodeList (b64encodeList bs) = some bs := by
  intro bs
  induction bs using b64encodeList.induct with
  | case1 b0 b1 b2 rest ih =>
    intro h
    have h0 : b0 < 256 := h b0 (by simp)
    have h1 : b1 < 256 := h b1 (by simp)
    have h2 : b2 < 256 := h b2 (by simp)
    have hrest := ih (fun b hb => h b (by simp [hb]))
    rw [b64encodeList, b64decodeList]
    rw [if_neg (fun hc => b64chr_ne_pad (b1 % 16 * 4 + b2 / 64) (by omega) hc.1)]
    rw [if_neg (fun hc => b64chr_ne_pad (b2 % 64) (by omega) hc.1)]
    rw [b64idx_b64chr _ (by omega), b64idx_b64chr _ (by omega),
        b64idx_b64chr _ (by omega), b64idx_b64chr _ (by omega), hrest]
    simp only [Option.some.injEq, List.cons.injEq]
    refine ⟨by omega, by omega, by omega, trivial⟩
  | case2 b0 b1 =>
    intro h
    have h0 : b0 < 256 := h b0 (by simp)
    have h1 : b1 < 256 := h b1 (by simp)
    rw [b64encodeList, b64decodeList]
    rw [if_neg (fun hc => b64chr_ne_pad (b1 % 16 * 4) (by omega) hc.1)]
    rw [if_pos ⟨rfl, rfl⟩]
    rw [b64idx_b64chr _ (by omega), b64idx_b64chr _ (by omega), b64idx_b64chr _ (by omega)]
    simp only [Option.some.injEq, List.cons.injEq]
    refine ⟨by omega, by omega, trivial⟩
  | case3 b0 =>
    intro h
    have h0 : b0 < 256 := h b0 (by simp)
    rw [b64encodeList, b64decodeList]
    rw [if_pos ⟨rfl, rfl, rfl⟩]
    rw [b64idx_b64chr _ (by omega), b64idx_b64chr _ (by omega)]
    simp only [Option.some.injEq, List.cons.injEq]
    refine ⟨by omega, trivial⟩
  | case4 =>
    intro _
    rfl

/-- Every unicode scalar value is below 1114112. -/
theorem char_toNat_lt (c : Char) : c.toNat < 1114112 := by
  have h := c.valid
  simp only [UInt32.isValidChar, Nat.isValidChar] at h
  show c.val.toNat < 1114112
  rcases h with h | ⟨h1, h2⟩ <;> omega

/-- UTF-8 encoding of a valid scalar value produces bytes. -/
theorem utf8Bytes_lt (n : Nat) (hn : n < 1114112) : ∀ b ∈ utf8Bytes n, b < 256 := by
  intro b hb
  unfold utf8Bytes at hb
  split at hb
  · simp at hb; omega
  · split at hb
    · simp at hb; rcases hb with h | h <;> omega
    · split at hb
      · simp at hb; rcases hb with h | h | h <;> omega
      · simp at hb; rcases hb with h | h | h | h <;> omega

/-- UTF-8 encoding of any character list produces bytes. -/
theorem utf8Encode_lt : ∀ (cs : List Char), ∀ b ∈ utf8Encode cs, b < 256 := by
  intro cs
  induction cs with
  | nil => intro b hb; simp [utf8Encode] at hb
  | cons c rest ih =>
    intro b hb
    simp only [utf8Encode, List.mem_append] at hb
    rcases hb with hb | hb
    · exact utf8Bytes_lt c.toNat (char_toNat_lt c) b hb
    · exact ih b hb

/-- The bytes of well-formed tuple-attachment content are bytes. -/
theorem attachContentBytes_lt (c : AttachContentVal) (hc : c.wfBytes) :
    ∀ b ∈ attachContentBytes c, b < 256 := by
  cases c with
  | ofStr s => exact utf8Encode_lt s.data
  | ofBytes bs => exact hc

/-- Success inversion for the build: a successful build determines the four
validated values, the assembled payload and the returned message. -/
theorem build_ok_elim {pa : String → String × String} {paL : List String → String × String}
    {uuid : Nat → String} {gx : String → Option String} {cfg : Config} {m : Msg}
    {p : Payload} {m' : Msg}
    (hb : buildSgMail pa paL uuid gx cfg m = .ok (p, m')) :
    ∃ poolName sendAt replyTo asmV,
      checkPool m = .ok poolName ∧ checkSendAt m = .ok sendAt ∧
      resolveReplyTo pa paL (headersLoop (none, []) m.extra_headers).1 m = .ok replyTo ∧
      checkAsm m = .ok asmV ∧
      p = assemblePayload pa uuid gx cfg m poolName sendAt replyTo asmV ∧
      m' = { m with body := coerceBody m.body } := by
  unfold buildSgMail at hb
  cases hcp : checkPool m with
  | error e => rw [hcp] at hb; exact absurd hb (by simp)
  | ok poolName =>
  rw [hcp] at hb
  cases hcs : checkSendAt m with
  | error e => rw [hcs] at hb; exact absurd hb (by simp)
  | ok sendAt =>
  rw [hcs] at hb
  cases hrr : resolveReplyTo pa paL (headersLoop (none, []) m.extra_headers).1 m with
  | error e => rw [hrr] at hb; exact absurd hb (by simp)
  | ok replyTo =>
  rw [hrr] at hb
  cases hca : checkAsm m with
  | error e => rw [hca] at hb; exact absurd hb (by simp)
  | ok asmV =>
  rw [hca] at hb
  simp only [Except.ok.injEq, Prod.mk.injEq] at hb
  exact ⟨poolName, sendAt, replyTo, asmV, rfl, rfl, rfl, rfl, hb.1.symm, hb.2.symm⟩

/-- Success introduction for the build: once the four validations pass, the
build returns the assembled payload and the body-coerced message. -/
theorem build_ok_intro (pa : String → String × String) (paL : List String → String × String)
    (uuid : Nat → String) (gx : String → Option String) (cfg : Config) (m : Msg)
    {poolName : Option String} {sendAt : Option Int} {replyTo : Option EmailAddr}
    {asmV : Option (Int × Option (List Int))}
    (hcp : checkPool m = .ok poolName) (hcs : checkSendAt m = .ok sendAt)
    (hrr : resolveReplyTo pa paL (headersLoop (none, []) m.extra_headers).1 m = .ok replyTo)
    (hca : checkAsm m = .ok asmV) :
    buildSgMail pa paL uuid gx cfg m =
      .ok (assemblePayload pa uuid gx cfg m poolName sendAt replyTo asmV,
           { m with body := coerceBody m.body }) := by
  unfold buildSgMail
  rw [hcp, hcs, hrr, hca]

/-- C3 (amended): a successful build leaves every field of the source
message unchanged except `body`, which is set to a single space exactly when
it was the empty string (source line 239 assigns `msg.body` in place);
result metadata is written only by `send_messages` after a successful
send, not by the build. -/
theorem c3_build_frame (pa : String → String × String) (paL : List String → String × String)
    (uuid : Nat → String) (gx : String → Option String) (cfg : Config) {m : Msg}
    {p : Payload} {m' : Msg}
    (hb : buildSgMail pa paL uuid gx cfg m = .ok (p, m')) :
    m' = { m with body := coerceBody m.body } := by
  obtain ⟨_, _, _, _, _, _, _, _, _, hm⟩ := build_ok_elim hb
  exact hm

/-- C3 counterexample: building a message whose body is the empty string
succeeds but hands back the message with body `" "`, so the body field is
not identical before and after the build. -/
theorem c3_counterexample :
    (buildSgMail paSimple paListSimple uuidFixed gxSimple cfgDefault msgEmptyBody).map
        (fun r => r.2.body) = .ok " " ∧
      msgEmptyBody.body = "" := by
  exact ⟨by decide, by decide⟩

/-- C3 witness: the frame theorem evaluated on the empty-body message. -/
theorem c3_witness :
    (buildSgMail paSimple paListSimple uuidFixed gxSimple cfgDefault msgEmptyBody).map
      (fun r => r.2) = .ok { msgEmptyBody with body := coerceBody msgEmptyBody.body } := by
  obtain ⟨⟨p, m2⟩, hb⟩ := exists_ok_of_isOkE
    (x := buildSgMail paSimple paListSimple uuidFixed gxSimple cfgDefault msgEmptyBody)
    (by decide)
  have hf := c3_build_frame paSimple paListSimple uuidFixed gxSimple cfgDefault hb
  rw [hb, hf]
  rfl

/-- C6: when the message body is the empty string, the body-derived content
of a successful payload is a single space, never the empty string: the
leading plain-text part is `⟨"text/plain", " "⟩`, and in the html-subtype
case the html part built from the body is `" "` as well. -/
theorem c6_empty_body (pa : String → String × String) (paL : List String → String × String)
    (uuid : Nat → String) (gx : String → Option String) (cfg : Config) {m : Msg}
    {p : Payload} {m' : Msg}
    (hbody : m.body = "")
    (hb : buildSgMail pa paL uuid gx cfg m = .ok (p, m')) :
    p.content.head? = some ⟨"text/plain", " "⟩ ∧
    (m.multi = none → m.content_subtype = "html" →
      p.content = [⟨"text/plain", " "⟩, ⟨"text/html", " "⟩]) := by
  obtain ⟨pn, sa, rt, av, _, _, _, _, hp, _⟩ := build_ok_elim hb
  subst hp
  constructor
  · simp only [assemblePayload]
    cases hmu : m.multi with
    | some alts => simp [contentParts, hmu, coerceBody, hbody]
    | none =>
      by_cases hcs : m.content_subtype = "html" <;>
        simp [contentParts, hmu, hcs, coerceBody, hbody]
  · intro h1 h2
    simp [assemblePayload, contentParts, h1, h2, coerceBody, hbody]

/-- C6 witness: the empty-body theorem evaluated on a plain message. -/
theorem c6_witness :
    (buildSgMail paSimple paListSimple uuidFixed gxSimple cfgDefault msgEmptyBody).map
      (fun r => r.1.content.head?) = .ok (some ⟨"text/plain", " "⟩) := by
  obtain ⟨⟨p, m2⟩, hb⟩ := exists_ok_of_isOkE
    (x := buildSgMail paSimple paListSimple uuidFixed gxSimple cfgDefault msgEmptyBody)
    (by decide)
  have h := c6_empty_body paSimple paListSimple uuidFixed gxSimple cfgDefault (by decide) hb
  rw [hb]
  simp only [Except.map]
  rw [h.1]

/-- C7: a message of content subtype `"html"` which is not a
multi-alternative message yields exactly two content parts, a single-space
plain-text placeholder followed by a `"text/html"` part whose value is the
message's body (the body the build reads on line 248, after the line-239
empty-body coercion). -/
theorem c7_html_subtype (pa : String → String × String) (paL : List String → String × String)
    (uuid : Nat → String) (gx : String → Option String) (cfg : Config) {m : Msg}
    {p : Payload} {m' : Msg}
    (hsub : m.content_subtype = "html") (hmulti : m.multi = none)
    (hb : buildSgMail pa paL uuid gx cfg m = .ok (p, m')) :
    p.content = [⟨"text/plain", " "⟩, ⟨"text/html", m'.body⟩] ∧
    m'.body = coerceBody m.body := by
  obtain ⟨pn, sa, rt, av, _, _, _, _, hp, hm⟩ := build_ok_elim hb
  subst hp
  subst hm
  refine ⟨?_, rfl⟩
  simp [assemblePayload, contentParts, hsub, hmulti]

/-- C7 witness: the html-subtype theorem evaluated on a concrete message. -/
theorem c7_witness :
    (buildSgMail paSimple paListSimple uuidFixed gxSimple cfgDefault msgHtml).map
      (fun r => r.1.content)
      = .ok [⟨"text/plain", " "⟩, ⟨"text/html", "<b>hi</b>"⟩] := by
  obtain ⟨⟨p, m2⟩, hb⟩ := exists_ok_of_isOkE
    (x := buildSgMail paSimple paListSimple uuidFixed gxSimple cfgDefault msgHtml)
    (by decide)
  have h := c7_html_subtype paSimple paListSimple uuidFixed gxSimple cfgDefault
    (by decide) (by decide) hb
  rw [hb]
  simp only [Except.map]
  rw [h.1, h.2]
  rfl

/-- C8: a multi-alternative message with exactly one `"text/html"`
alternative and one alternative of another subtype yields exactly two
content parts: the plain-text body first, then the html alternative; the
other alternative is dropped. -/
theorem c8_two_alternatives (pa : String → String × String)
    (paL : List String → String × String) (uuid : Nat → String)
    (gx : String → Option String) (cfg : Config) {m : Msg} {p : Payload} {m' : Msg}
    {a1 t1 a2 t2 : String}
    (halts : m.multi = some [(a1, t1), (a2, t2)])
    (hone : (t1 = "text/html" ∧ t2 ≠ "text/html") ∨ (t1 ≠ "text/html" ∧ t2 = "text/html"))
    (hb : buildSgMail pa paL uuid gx cfg m = .ok (p, m')) :
    p.content = [⟨"text/plain", m'.body⟩,
                 ⟨"text/html", if t1 = "text/html" then a1 else a2⟩] ∧
    m'.body = coerceBody m.body := by
  obtain ⟨pn, sa, rt, av, _, _, _, _, hp, hm⟩ := build_ok_elim hb
  subst hp
  subst hm
  refine ⟨?_, rfl⟩
  rcases hone with ⟨h1, h2⟩ | ⟨h1, h2⟩ <;>
    simp [assemblePayload, contentParts, halts, htmlAlts, h1, h2]

/-- C8 witness: the two-alternatives theorem evaluated on a message with an
html and a csv alternative. -/
theorem c8_witness :
    (buildSgMail paSimple paListSimple uuidFixed gxSimple cfgDefault msgTwoAlts).map
      (fun r => r.1.content)
      = .ok [⟨"text/plain", "Body"⟩, ⟨"text/html", "<p>x</p>"⟩] := by
  obtain ⟨⟨p, m2⟩, hb⟩ := exists_ok_of_isOkE
    (x := buildSgMail paSimple paListSimple uuidFixed gxSimple cfgDefault msgTwoAlts)
    (by decide)
  have h := @c8_two_alternatives paSimple paListSimple uuidFixed gxSimple cfgDefault
    msgTwoAlts p m2 "<p>x</p>" "text/html" "csv" "text/csv"
    (by decide) (.inl ⟨rfl, by decide⟩) hb
  rw [hb]
  simp only [Except.map]
  rw [h.1, h.2]
  rfl

/-- C5: a declared pool name that is not a string or whose length lies
outside the inclusive range 2..64 makes the build raise the corresponding
pool-name error; a valid pool name never affects success and is copied
verbatim into the payload's `ip_pool_name`. -/
theorem c5_pool_name (pa : String → String × String) (paL : List String → String × String)
    (uuid : Nat → String) (gx : String → Option String) (cfg : Config) (m : Msg)
    (pv : PoolNameVal) (hp : m.ip_pool_name = some pv) :
    (poolValidB pv = false → buildSgMail pa paL uuid gx cfg m = .error (poolErr pv)) ∧
    (∀ v, pv = .str v → poolValidB pv = true →
      ∀ p m', buildSgMail pa paL uuid gx cfg { m with ip_pool_name := none } = .ok (p, m') →
        buildSgMail pa paL uuid gx cfg m =
          .ok ({ p with ip_pool_name := some v }, { m with body := coerceBody m.body })) := by
  constructor
  · intro hv
    have hcp : checkPool m = .error (poolErr pv) := by
      cases pv with
      | notAStr => simp [checkPool, hp, poolErr]
      | str v =>
        simp only [poolValidB, decide_eq_false_iff_not] at hv
        simp [checkPool, hp, poolErr, hv]
    unfold buildSgMail
    rw [hcp]
  · intro v hv hvalid p m' hb
    subst hv
    obtain ⟨pn, sa, rt, av, hcp0, hcs0, hrr0, hca0, hp0, hm0⟩ := build_ok_elim hb
    have hpn : pn = none := by
      simp only [checkPool, Except.ok.injEq] at hcp0
      exact hcp0.symm
    subst hpn
    have hcp : checkPool m = .ok (some v) := by
      simp only [poolValidB, decide_eq_true_eq] at hvalid
      simp [checkPool, hp, hvalid]
    have hcs : checkSendAt m = .ok sa := hcs0
    have hrr : resolveReplyTo pa paL (headersLoop (none, []) m.extra_headers).1 m = .ok rt :=
      hrr0
    have hca : checkAsm m = .ok av := hca0
    rw [build_ok_intro pa paL uuid gx cfg m hcp hcs hrr hca, hp0]
    rfl

/-- C5 witness: pool names of lengths 1 and 65 raise the length error, pool
names of lengths 2 and 64 succeed and are copied verbatim. -/
theorem c5_witness :
    buildSgMail paSimple paListSimple uuidFixed gxSimple cfgDefault msgShortPool
        = .error .invalidPoolNameLength ∧
    buildSgMail paSimple paListSimple uuidFixed gxSimple cfgDefault msgPool65
        = .error .invalidPoolNameLength ∧
    (buildSgMail paSimple paListSimple uuidFixed gxSimple cfgDefault msgPool2).map
        (fun x => x.1.ip_pool_name) = .ok (some "ab") ∧
    (buildSgMail paSimple paListSimple uuidFixed gxSimple cfgDefault msgPool64).map
        (fun x => x.1.ip_pool_name)
      = .ok (some "p123456789012345678901234567890123456789012345678901234567890123") := by
  refine ⟨(c5_pool_name paSimple paListSimple uuidFixed gxSimple cfgDefault msgShortPool
            (.str "a") rfl).1 (by decide),
          (c5_pool_name paSimple paListSimple uuidFixed gxSimple cfgDefault msgPool65
            (.str "p1234567890123456789012345678901234567890123456789012345678901234")
            rfl).1 (by decide), ?_, ?_⟩
  · obtain ⟨⟨p, m2⟩, hb⟩ := exists_ok_of_isOkE
      (x := buildSgMail paSimple paListSimple uuidFixed gxSimple cfgDefault
        { msgPool2 with ip_pool_name := none }) (by decide)
    have h2 := (c5_pool_name paSimple paListSimple uuidFixed gxSimple cfgDefault msgPool2
      (.str "ab") rfl).2 "ab" rfl (by decide) p m2 hb
    rw [h2]
    rfl
  · obtain ⟨⟨p, m2⟩, hb⟩ := exists_ok_of_isOkE
      (x := buildSgMail paSimple paListSimple uuidFixed gxSimple cfgDefault
        { msgPool64 with ip_pool_name := none }) (by decide)
    have h2 := (c5_pool_name paSimple paListSimple uuidFixed gxSimple cfgDefault msgPool64
      (.str "p123456789012345678901234567890123456789012345678901234567890123") rfl).2
      "p123456789012345678901234567890123456789012345678901234567890123" rfl (by decide)
      p m2 hb
    rw [h2]
    rfl

/-- C10: a present but falsy explicit reply-to field (empty string or empty
list) makes the build skip the whole reply-to block: no exception, no
conflict check, and the payload's reply-to is exactly what it would be had
the field been absent (i.e. whatever a reply-to header derived, or none). -/
theorem c10_falsy_reply_to (pa : String → String × String)
    (paL : List String → String × String) (uuid : Nat → String)
    (gx : String → Option String) (cfg : Config) (m : Msg) (r : ReplyToVal)
    (hr : m.reply_to = some r) (hf : r.truthy = false) :
    (buildSgMail pa paL uuid gx cfg m).map (fun x => x.1) =
      (buildSgMail pa paL uuid gx cfg { m with reply_to := none }).map (fun x => x.1) := by
  have hres : resolveReplyTo pa paL (headersLoop (none, []) m.extra_headers).1 m =
      resolveReplyTo pa paL (headersLoop (none, []) m.extra_headers).1
        { m with reply_to := none } := by
    unfold resolveReplyTo
    simp [hr, hf]
  have e1 : checkPool { m with reply_to := none } = checkPool m := rfl
  have e2 : checkSendAt { m with reply_to := none } = checkSendAt m := rfl
  have e3 : checkAsm { m with reply_to := none } = checkAsm m := rfl
  have e4 : ({ m with reply_to := none } : Msg).extra_headers = m.extra_headers := rfl
  unfold buildSgMail
  rw [e1, e2, e3, e4, ← hres]
  cases hcp : checkPool m with
  | error e => rfl
  | ok pn =>
  cases hcs : checkSendAt m with
  | error e => rfl
  | ok sa =>
  cases hrr : resolveReplyTo pa paL (headersLoop (none, []) m.extra_headers).1 m with
  | error e => rfl
  | ok rt =>
  cases hca : checkAsm m with
  | error e => rfl
  | ok av => rfl

/-- C10 witness: the falsy-reply-to theorem evaluated on a message with an
empty reply-to list next to a reply-to header; the header-derived identity
survives. -/
theorem c10_witness :
    (buildSgMail paSimple paListSimple uuidFixed gxSimple cfgDefault msgFalsyReplyTo).map
        (fun x => x.1) =
      (buildSgMail paSimple paListSimple uuidFixed gxSimple cfgDefault
        { msgFalsyReplyTo with reply_to := none }).map (fun x => x.1) ∧
    (buildSgMail paSimple paListSimple uuidFixed gxSimple cfgDefault msgFalsyReplyTo).map
        (fun x => x.1.reply_to) = .ok (some ⟨"h@x.com", none⟩) := by
  exact ⟨c10_falsy_reply_to paSimple paListSimple uuidFixed gxSimple cfgDefault
    msgFalsyReplyTo (.list []) rfl rfl, by decide⟩

/-- C1 (amended): with a reply-to header (raw value `v`, stored unparsed
with no display name) and a truthy explicit reply-to string field `s`, the
build compares the parsed field against the raw header value: it succeeds,
with the parsed field as the single reply-to identity, exactly when the
parsed field's address equals `v` and the parsed field has no display name;
otherwise it raises the reply-to conflict error.  (The side conditions keep
the unrelated pool/send-at/asm validations out of the way.) -/
theorem c1_reply_to_reconciliation (pa : String → String × String)
    (paL : List String → String × String) (uuid : Nat → String)
    (gx : String → Option String) (cfg : Config) (m : Msg) (v s : String)
    (hdr : divertedReplyTo m.extra_headers = some v)
    (hfield : m.reply_to = some (.str s)) (hs : s ≠ "")
    (hpool : m.ip_pool_name = none) (hsend : m.send_at = none) (hasm : m.asm = none) :
    ((parseEmailAddress pa s).email = v ∧ (parseEmailAddress pa s).name = none →
      (buildSgMail pa paL uuid gx cfg m).map (fun x => x.1.reply_to)
        = .ok (some (parseEmailAddress pa s))) ∧
    (¬((parseEmailAddress pa s).email = v ∧ (parseEmailAddress pa s).name = none) →
      buildSgMail pa paL uuid gx cfg m = .error .replyToConflict) := by
  have hd1 : (headersLoop (none, []) m.extra_headers).1 = some ⟨v, none⟩ := by
    rw [headersLoop_spec]
    simp [hdr]
  have hcp : checkPool m = .ok none := by simp [checkPool, hpool]
  have hcs : checkSendAt m = .ok none := by simp [checkSendAt, hsend]
  have hca : checkAsm m = .ok none := by simp [checkAsm, hasm]
  constructor
  · intro hmatch
    have hrr : resolveReplyTo pa paL (headersLoop (none, []) m.extra_headers).1 m
        = .ok (some (parseEmailAddress pa s)) := by
      rw [hd1]
      unfold resolveReplyTo
      rw [hfield]
      simp [ReplyToVal.truthy, hs, parseReplyToVal, hmatch.1, hmatch.2]
    rw [build_ok_intro pa paL uuid gx cfg m hcp hcs hrr hca]
    rfl
  · intro hne
    have hcond : (parseEmailAddress pa s).email ≠ v ∨ (parseEmailAddress pa s).name ≠ none := by
      by_cases he : (parseEmailAddress pa s).email = v
      · exact .inr (fun hn => hne ⟨he, hn⟩)
      · exact .inl he
    have hrr : resolveReplyTo pa paL (headersLoop (none, []) m.extra_headers).1 m
        = .error .replyToConflict := by
      rw [hd1]
      unfold resolveReplyTo
      rw [hfield]
      simp only [ReplyToVal.truthy, hs, parseReplyToVal]
      rcases hcond with hc | hc <;> simp [hc, hs]
    unfold buildSgMail
    rw [hcp, hcs, hrr]

/-- C1 counterexample: header `"Reply-To": "John <a@x.com>"` and explicit
field `"John <a@x.com>"` are the very same string, hence denote the same
address and display name, yet the build raises the conflict error: the
header side is kept raw (`Email(v)`) while the field side is parsed, so the
comparison on line 195 fails. -/
theorem c1_counterexample :
    buildSgMail paSimple paListSimple uuidFixed gxSimple cfgDefault msgReplyToBoth
      = .error .replyToConflict ∧
    msgReplyToBoth.extra_headers = [("Reply-To", "John <a@x.com>")] ∧
    msgReplyToBoth.reply_to = some (.str "John <a@x.com>") := by
  exact ⟨by decide, rfl, rfl⟩

/-- C1 witness: the reconciliation theorem on the plain-address message,
where the parsed field matches the raw header value. -/
theorem c1_witness :
    ((parseEmailAddress paSimple "a@x.com").email = "a@x.com" ∧
      (parseEmailAddress paSimple "a@x.com").name = none) ∧
    (buildSgMail paSimple paListSimple uuidFixed gxSimple cfgDefault msgReplyToPlain).map
        (fun x => x.1.reply_to) = .ok (some (parseEmailAddress paSimple "a@x.com")) := by
  refine ⟨by decide, ?_⟩
  exact (c1_reply_to_reconciliation paSimple paListSimple uuidFixed gxSimple cfgDefault
    msgReplyToPlain "a@x.com" "a@x.com" (by decide) rfl (by decide) rfl rfl rfl).1 (by decide)

/-- C2 (amended): every header whose name lowercases to `"reply-to"` is
diverted to the payload's reply-to identity, whose address is the raw
header value with no display name (the value is not split into address and
display name; the last such header wins); every other header reaches the
personalization block unchanged and in order. -/
theorem c2_header_diversion (pa : String → String × String)
    (paL : List String → String × String) (uuid : Nat → String)
    (gx : String → Option String) (cfg : Config) {m : Msg} {p : Payload} {m' : Msg}
    (hrt : m.reply_to = none)
    (hb : buildSgMail pa paL uuid gx cfg m = .ok (p, m')) :
    p.personalization.headers = keptHeaders m.extra_headers ∧
    p.reply_to = (divertedReplyTo m.extra_headers).map (fun v => (⟨v, none⟩ : EmailAddr)) := by
  obtain ⟨pn, sa, rt, av, hcp, hcs, hrr, hca, hp, hm⟩ := build_ok_elim hb
  have hres : resolveReplyTo pa paL (headersLoop (none, []) m.extra_headers).1 m
      = .ok ((headersLoop (none, []) m.extra_headers).1) := by
    unfold resolveReplyTo
    rw [hrt]
  rw [hres] at hrr
  simp only [Except.ok.injEq] at hrr
  subst hp
  constructor
  · show (headersLoop (none, []) m.extra_headers).2 = _
    rw [headersLoop_spec]
    simp
  · show rt = _
    rw [← hrr, headersLoop_spec]
    cases hdr : divertedReplyTo m.extra_headers <;> simp

/-- C2 counterexample: a reply-to header carrying a display name is stored
raw: the payload's reply-to identity is `⟨"John <a@x.com>", none⟩`, not the
split `⟨"a@x.com", some "John"⟩` that parsing the value as an address (as
the claim asserts, and as the address parser itself does) would give. -/
theorem c2_counterexample :
    (buildSgMail paSimple paListSimple uuidFixed gxSimple cfgDefault msgHeaderOnly).map
        (fun x => x.1.reply_to) = .ok (some ⟨"John <a@x.com>", none⟩) ∧
    paSimple "John <a@x.com>" = ("John", "a@x.com") ∧
    (⟨"John <a@x.com>", none⟩ : EmailAddr) ≠ ⟨"a@x.com", some "John"⟩ := by
  exact ⟨by decide, by decide, by decide⟩

/-- C2 witness: the diversion theorem on a scrambled-case header list: the
`REPLY-to` header becomes the reply-to identity, the others pass through. -/
theorem c2_witness :
    (buildSgMail paSimple paListSimple uuidFixed gxSimple cfgDefault msgMixedHeaders).map
        (fun x => (x.1.personalization.headers, x.1.reply_to))
      = .ok ([("X-Custom", "1"), ("Other", "2")], some ⟨"r@x.com", none⟩) := by
  obtain ⟨⟨p, m2⟩, hb⟩ := exists_ok_of_isOkE
    (x := buildSgMail paSimple paListSimple uuidFixed gxSimple cfgDefault msgMixedHeaders)
    (by decide)
  have h := c2_header_diversion paSimple paListSimple uuidFixed gxSimple cfgDefault rfl hb
  rw [hb]
  simp only [Except.map]
  rw [h.1, h.2]
  rfl

/-- A synthesized attachment filename starts with `"part-"` and is never
empty. -/
theorem synthFilename_ne_empty (hex : String) (gx : String → Option String) (ctype : String) :
    synthFilename hex gx ctype ≠ "" := by
  unfold synthFilename
  intro h
  have hl := congrArg String.length h
  rw [String.length_append, String.length_append] at hl
  have h5 : ("part-" : String).length = 5 := rfl
  have h0 : ("" : String).length = 0 := rfl
  omega

/-- The filename the attachment loop gives a structured part. -/
theorem buildAttachment_mime_filename (hex : String) (gx : String → Option String)
    (part : MimePart) :
    (buildAttachment hex gx (.mime part)).filename =
      match part.filename with
      | some f => if f = "" then synthFilename hex gx part.content_type else f
      | none => synthFilename hex gx part.content_type := rfl

/-- The attachment loop satisfies the filename specification at every
position, whatever uuid stream and extension guesser are plugged in. -/
theorem buildAttachments_filename_spec (uuid : Nat → String) (gx : String → Option String) :
    ∀ (l : List AttachVal) (i : Nat),
      List.Forall₂ (filenameSpec uuid gx) (enumAttach i l) (buildAttachments uuid gx i l) := by
  intro l
  induction l with
  | nil => intro i; exact List.Forall₂.nil
  | cons a rest ih =>
    intro i
    refine List.Forall₂.cons ?_ (ih (i + 1))
    cases a with
    | tup f c t => show (buildAttachment (uuid i) gx (.tup f c t)).filename = f; rfl
    | mime part =>
      refine ⟨?_, ?_, ?_⟩
      · rw [buildAttachment_mime_filename]
        cases hf : part.filename with
        | none => exact synthFilename_ne_empty _ _ _
        | some f =>
          show (if f = "" then synthFilename (uuid i) gx part.content_type else f) ≠ ""
          by_cases hfe : f = ""
          · rw [if_pos hfe]
            exact synthFilename_ne_empty _ _ _
          · rw [if_neg hfe]
            exact hfe
      · intro hcase
        rw [buildAttachment_mime_filename]
        rcases hcase with hc | hc <;> simp [hc]
      · intro f hf hfe
        rw [buildAttachment_mime_filename]
        simp [hf, hfe]

/-- C4 (amended): in every successful payload, each attachment built from a
structured part has a non-empty filename — the part's own filename when a
non-empty one is present, otherwise the one synthesized from the uuid hex
token and the guessed extension — while each attachment built from a tuple
keeps its given filename verbatim, including when that filename is empty. -/
theorem c4_attachment_filenames (pa : String → String × String)
    (paL : List String → String × String) (uuid : Nat → String)
    (gx : String → Option String) (cfg : Config) {m : Msg} {p : Payload} {m' : Msg}
    (hb : buildSgMail pa paL uuid gx cfg m = .ok (p, m')) :
    List.Forall₂ (filenameSpec uuid gx) (enumAttach 0 m.attachments) p.attachments := by
  obtain ⟨pn, sa, rt, av, _, _, _, _, hp, _⟩ := build_ok_elim hb
  subst hp
  exact buildAttachments_filename_spec uuid gx m.attachments 0

/-- C4 counterexample: a tuple attachment whose given filename is the empty
string yields a successful payload whose only attachment has filename `""`,
so not every attachment of a successful payload has a non-empty filename. -/
theorem c4_counterexample :
    (buildSgMail paSimple paListSimple uuidFixed gxSimple cfgDefault msgEmptyFilename).map
      (fun x => x.1.attachments.map (fun a => a.filename)) = .ok [""] := by
  decide

/-- C4 witness: the filename theorem on a filename-less png part, a named
tuple attachment and a png part with its own filename: the first filename
is synthesized, the second and third are kept verbatim. -/
theorem c4_witness :
    (buildSgMail paSimple paListSimple uuidFixed gxSimple cfgDefault msgTwoAttachments).map
      (fun x => x.1.attachments.map (fun a => a.filename))
      = .ok ["part-0123abcd.png", "a.txt", "given.png"] := by
  obtain ⟨⟨p, m2⟩, hb⟩ := exists_ok_of_isOkE
    (x := buildSgMail paSimple paListSimple uuidFixed gxSimple cfgDefault msgTwoAttachments)
    (by decide)
  have h := c4_attachment_filenames paSimple paListSimple uuidFixed gxSimple cfgDefault hb
  have h' : List.Forall₂ (filenameSpec uuidFixed gxSimple)
      [((0 : Nat), AttachVal.mime ⟨none, "image/png", "QUJD", none⟩),
       ((1 : Nat), AttachVal.tup "a.txt" (.ofStr "hi") "text/plain"),
       ((2 : Nat), AttachVal.mime ⟨some "given.png", "image/png", "QUJD", none⟩)]
      p.attachments := h
  generalize hpa : p.attachments = pas at h'
  rcases h' with _ | ⟨hA, hB'⟩
  rcases hB' with _ | ⟨hB, hC'⟩
  rcases hC' with _ | ⟨hC, hnil⟩
  cases hnil
  have hAf := hA.2.1 (Or.inl rfl)
  have hBf : _ = "a.txt" := hB
  have hCf := hC.2.2 "given.png" rfl (by decide)
  rw [hb]
  simp only [Except.map, hpa, List.map]
  rw [hAf, hBf, hCf]
  decide

/-- The attachment loop satisfies the content specification on well-formed
attachment lists: tuple content is base64-encoded (after UTF-8 encoding for
textual content) and the decoder recovers the bytes. -/
theorem buildAttachments_content_spec (uuid : Nat → String) (gx : String → Option String) :
    ∀ (l : List AttachVal), (∀ a ∈ l, a.wfA) → ∀ i,
      List.Forall₂ contentSpec l (buildAttachments uuid gx i l) := by
  intro l
  induction l with
  | nil => intro _ i; exact List.Forall₂.nil
  | cons a rest ih =>
    intro hwf i
    refine List.Forall₂.cons ?_ (ih (fun x hx => hwf x (by simp [hx])) (i + 1))
    cases a with
    | mime part => trivial
    | tup f c t =>
      have hc : AttachContentVal.wfBytes c := hwf (.tup f c t) (by simp)
      constructor
      · rfl
      · show b64decodeStr (b64encodeStr (attachContentBytes c)) = some (attachContentBytes c)
        exact b64decodeList_encodeList _ (attachContentBytes_lt c hc)

/-- C9: every tuple attachment of a message (with well-formed byte content)
reaches the successful payload base64-encoded — textual content UTF-8
encoded first, raw bytes encoded directly — so base64-decoding the payload
attachment's content recovers the original bytes. -/
theorem c9_tuple_attachment_content (pa : String → String × String)
    (paL : List String → String × String) (uuid : Nat → String)
    (gx : String → Option String) (cfg : Config) {m : Msg} {p : Payload} {m' : Msg}
    (hwf : ∀ a ∈ m.attachments, a.wfA)
    (hb : buildSgMail pa paL uuid gx cfg m = .ok (p, m')) :
    List.Forall₂ contentSpec m.attachments p.attachments := by
  obtain ⟨pn, sa, rt, av, _, _, _, _, hp, _⟩ := build_ok_elim hb
  subst hp
  exact buildAttachments_content_spec uuid gx m.attachments hwf 0

/-- C9 witness: the content theorem on a tuple attachment with string
content `"hello"`: decoding the payload content gives the UTF-8 bytes of
`"hello"`. -/
theorem c9_witness :
    (buildSgMail paSimple paListSimple uuidFixed gxSimple cfgDefault msgHello).map
        (fun x => x.1.attachments.map (fun a => b64decodeStr a.content))
      = .ok [some [104, 101, 108, 108, 111]] ∧
    attachContentBytes (.ofStr "hello") = [104, 101, 108, 108, 111] := by
  refine ⟨?_, by decide⟩
  obtain ⟨⟨p, m2⟩, hb⟩ := exists_ok_of_isOkE
    (x := buildSgMail paSimple paListSimple uuidFixed gxSimple cfgDefault msgHello)
    (by decide)
  have h := c9_tuple_attachment_content paSimple paListSimple uuidFixed gxSimple cfgDefault
    (by decide) hb
  have h' : List.Forall₂ contentSpec [AttachVal.tup "f.txt" (.ofStr "hello") "text/plain"]
      p.attachments := h
  generalize hpa : p.attachments = pas at h'
  rcases h' with _ | ⟨hA, hnil⟩
  cases hnil
  rw [hb]
  simp only [Except.map, hpa, List.map]
  rw [hA.2]
  decide

end SendgridV5
